import Mathlib

/-!
Shallow embedding of the Code4Ved scraping core (`src/code4ved/scraping/`):
the data model (`models.py`), the task-execution loop of `BaseScraper`
(`base.py`), the filesystem content store (`storage.py`), the token-bucket
rate limiter (`utils/rate_limiter.py`) and the content/robots checks.

Modelling conventions:
* Python wall-clock timestamps (`datetime.utcnow()`, `time.time()`) are an
  abstract clock: `Nat` ticks for datetimes, `ℚ` for the rate limiter's
  continuous time.  Operations that read the clock take it as a parameter.
* Exceptions are `Except String` values; the string is the Python message.
* The HTTP session, the adapter (`scrape_url`) and the codec check
  (`str.encode`) are external effects and enter as function parameters.
* Mutation is explicit state passing; each Lean definition mirrors one
  Python function and is named after it.
-/

/-- `TextFormat` enum from `models.py`. -/
inductive TextFormat
  | html
  | pdf
  | plaintext
  | xml
  | json
deriving DecidableEq, Repr

/-- The `.value` string of a `TextFormat` member. -/
def TextFormat.value : TextFormat → String
  | .html => "html"
  | .pdf => "pdf"
  | .plaintext => "plaintext"
  | .xml => "xml"
  | .json => "json"

/-- `ScrapingStatus` enum from `models.py`. -/
inductive ScrapingStatus
  | pending
  | running
  | completed
  | failed
  | skipped
  | retrying
deriving DecidableEq, Repr

/-! ### Python string primitives

The Python string methods the scraping code uses (`replace`, `split`,
`strip`, `startswith`, `endswith`, `lower`, the substring test `in`),
implemented over character lists so that every definition evaluates
inside the kernel. -/

/-- Whether the second list is an initial segment of the first. -/
def listStartsWith : List Char → List Char → Bool
  | _, [] => true
  | [], _ :: _ => false
  | a :: as, b :: bs => a = b && listStartsWith as bs

/-- Python `s.startswith(pat)`. -/
def pyStartsWith (s pat : String) : Bool :=
  listStartsWith s.data pat.data

/-- Python `s.endswith(pat)`. -/
def pyEndsWith (s pat : String) : Bool :=
  listStartsWith s.data.reverse pat.data.reverse

/-- Python `s.strip()`: drop leading and trailing whitespace. -/
def pyStrip (s : String) : String :=
  (((s.data.dropWhile Char.isWhitespace).reverse.dropWhile
    Char.isWhitespace).reverse).asString

/-- Fuelled worker for `pyReplace`; the fuel is the haystack length, which
bounds the number of steps because each step consumes at least one
character. -/
def listReplaceAux (pat rep : List Char) : Nat → List Char → List Char
  | _, [] => []
  | 0, s => s
  | fuel + 1, c :: cs =>
      if pat ≠ [] && listStartsWith (c :: cs) pat then
        rep ++ listReplaceAux pat rep fuel ((c :: cs).drop pat.length)
      else
        c :: listReplaceAux pat rep fuel cs

/-- Python `s.replace(pat, rep)`: replace every non-overlapping
occurrence, left to right. -/
def pyReplace (s pat rep : String) : String :=
  (listReplaceAux pat.data rep.data s.data.length s.data).asString

/-- Fuelled worker for `pySplitOn` (`acc` holds the current field,
reversed). -/
def listSplitOnAux (sep : List Char) : Nat → List Char → List Char → List (List Char)
  | _, [], acc => [acc.reverse]
  | 0, s, acc => [acc.reverse ++ s]
  | fuel + 1, c :: cs, acc =>
      if sep ≠ [] && listStartsWith (c :: cs) sep then
        acc.reverse :: listSplitOnAux sep fuel ((c :: cs).drop sep.length) []
      else
        listSplitOnAux sep fuel cs (c :: acc)

/-- Python `s.split(sep)` for a non-empty separator. -/
def pySplitOn (s sep : String) : List String :=
  if sep = "" then [s]
  else (listSplitOnAux sep.data s.data.length s.data []).map List.asString

/-- Worker for `pyContains`: does the needle occur at any position? -/
def listContainsAux (n : List Char) : List Char → Bool
  | [] => false
  | c :: cs => listStartsWith (c :: cs) n || listContainsAux n cs

/-- Python's substring test `needle in haystack`. -/
def pyContains (haystack needle : String) : Bool :=
  needle = "" || listContainsAux needle.data haystack.data

/-- ASCII lowering of one character (the robots.txt directives and agent
strings the code lowercases are ASCII). -/
def pyLowerChar (c : Char) : Char :=
  if 'A' ≤ c && c ≤ 'Z' then Char.ofNat (c.toNat + 32) else c

/-- Python `s.lower()` on ASCII text. -/
def pyLower (s : String) : String :=
  (s.data.map pyLowerChar).asString

/-- Drop the last `n` characters (Python `s[:-n]`, used for stems). -/
def pyDropRight (s : String) (n : Nat) : String :=
  (s.data.take (s.data.length - n)).asString

/-- Drop the first `n` characters (Python `s[n:]`). -/
def pyDropLeft (s : String) (n : Nat) : String :=
  (s.data.drop n).asString

/-- `ScrapedContent` from `models.py`.  Fields not read by any modelled
operation (`language`, `page_count`, `properties`, ...) are omitted;
`scraped_at` is an abstract clock tick. -/
structure ScrapedContent where
  text : String
  title : String
  url : String
  source : String
  format : TextFormat
  category : Option String
  author : Option String
  scrapedAt : Nat
  encoding : String
  retryCount : Nat
  tags : List String
deriving DecidableEq, Repr

/-- The title-cleaning step of `ScrapedContent.get_filename`:
keep alphanumeric characters and space/dash/underscore, strip, then
replace spaces with underscores. -/
def cleanTitle (title : String) : String :=
  pyReplace (pyStrip ((title.data.filter fun c =>
      c.isAlphanum || c = ' ' || c = '-' || c = '_')).asString) " " "_"

/-- Models `scraped_at.strftime("%Y%m%d_%H%M%S")` on the abstract clock:
a stamp made of digits only (the real format adds one underscore; the only
property the code relies on is that the stamp contains no dot). -/
def strftimeCompact (t : Nat) : String :=
  toString t

/-- `ScrapedContent.get_filename` from `models.py`. -/
def ScrapedContent.getFilename (c : ScrapedContent) : String :=
  cleanTitle c.title ++ "_" ++ strftimeCompact c.scrapedAt ++ "." ++ c.format.value

/-- `ScrapedContent.get_metadata_filename` from `models.py`:
`get_filename().replace("." + format.value, "_metadata.json")`. -/
def ScrapedContent.getMetadataFilename (c : ScrapedContent) : String :=
  pyReplace c.getFilename ("." ++ c.format.value) "_metadata.json"

/-- `ScrapingTask` from `models.py` (configuration scalars that no modelled
operation reads are omitted). -/
structure ScrapingTask where
  id : String
  source : String
  urls : List String
  maxRetries : Nat
  status : ScrapingStatus
  createdAt : Nat
  startedAt : Option Nat
  completedAt : Option Nat
  totalUrls : Nat
  processedUrls : Nat
  successfulUrls : Nat
  failedUrls : Nat
deriving DecidableEq, Repr

/-- `ScrapingTask.start`. -/
def ScrapingTask.start (t : ScrapingTask) (now : Nat) : ScrapingTask :=
  { t with status := .running, startedAt := some now }

/-- `ScrapingTask.complete`. -/
def ScrapingTask.complete (t : ScrapingTask) (now : Nat) : ScrapingTask :=
  { t with status := .completed, completedAt := some now }

/-- `ScrapingTask.fail`. -/
def ScrapingTask.fail (t : ScrapingTask) (now : Nat) : ScrapingTask :=
  { t with status := .failed, completedAt := some now }

/-- `ScrapingTask.add_result`. -/
def ScrapingTask.addResult (t : ScrapingTask) (success : Bool) : ScrapingTask :=
  { t with
    processedUrls := t.processedUrls + 1
    successfulUrls := if success then t.successfulUrls + 1 else t.successfulUrls
    failedUrls := if success then t.failedUrls else t.failedUrls + 1 }

/-- `ScrapingTask.progress_percentage`. -/
def ScrapingTask.progressPercentage (t : ScrapingTask) : ℚ :=
  if t.totalUrls = 0 then 0
  else ((t.processedUrls : ℚ) / (t.totalUrls : ℚ)) * 100

/-- `ScrapingResult` from `models.py`. -/
structure ScrapingResult where
  taskId : String
  url : String
  status : ScrapingStatus
  content : Option ScrapedContent
  startedAt : Nat
  completedAt : Option Nat
  processingTime : Nat
  errorMessage : Option String
  errorType : Option String
  retryCount : Nat
deriving DecidableEq, Repr

/-- `ScrapingResult.complete`. -/
def ScrapingResult.complete (r : ScrapingResult) (content : Option ScrapedContent)
    (now : Nat) : ScrapingResult :=
  { r with
    status := .completed
    completedAt := some now
    processingTime := now - r.startedAt
    content := match content with
      | some c => some c
      | none => r.content }

/-- `ScrapingResult.fail`. -/
def ScrapingResult.fail (r : ScrapingResult) (errorMessage errorType : String)
    (now : Nat) : ScrapingResult :=
  { r with
    status := .failed
    completedAt := some now
    processingTime := now - r.startedAt
    errorMessage := some errorMessage
    errorType := some errorType }

/-- `ScrapingResult.retry`. -/
def ScrapingResult.retry (r : ScrapingResult) : ScrapingResult :=
  { r with
    status := .retrying
    retryCount := r.retryCount + 1
    errorMessage := none
    errorType := none }

/-- A raised Python exception as seen by `scrape_task`'s handler:
`str(e)` and `type(e).__name__`. -/
structure ScrapeErr where
  msg : String
  typ : String
deriving DecidableEq, Repr

/-- The fresh `ScrapingResult` built at the top of the per-URL loop body
of `BaseScraper.scrape_task`. -/
def initResult (taskId url : String) (now : Nat) : ScrapingResult :=
  { taskId := taskId
    url := url
    status := .running
    content := none
    startedAt := now
    completedAt := none
    processingTime := 0
    errorMessage := none
    errorType := none
    retryCount := 0 }

/-- The `except` branch of the per-URL loop body of
`BaseScraper.scrape_task` (`base.py`).  When `result.retry_count
< task.max_retries` the code calls `result.retry()` and `continue`:
the `continue` advances the `for url in task.urls` loop, so the retried
result is never appended and `task.add_result` is never called for the
URL (returned here as `none`).  Otherwise the result is failed, counted
and appended. -/
def scrapeTaskHandleError (task : ScrapingTask) (result : ScrapingResult)
    (e : ScrapeErr) (now : Nat) : ScrapingTask × Option ScrapingResult :=
  if result.retryCount < task.maxRetries then
    (task, none)
  else
    (task.addResult false, some (result.fail e.msg e.typ now))

/-- One iteration of the per-URL loop of `BaseScraper.scrape_task`:
build a Running result, call `scrape_url` (the `fetch` parameter), run
`_validate_content` (the `validate` parameter; a `false` verdict raises
`ContentValidationError`), and dispatch success / failure exactly as the
`try`/`except` does. -/
def scrapeTaskStep (fetch : String → Except ScrapeErr ScrapedContent)
    (validate : ScrapedContent → Bool) (task : ScrapingTask) (url : String)
    (now : Nat) : ScrapingTask × Option ScrapingResult :=
  let result := initResult task.id url now
  match fetch url with
  | .ok content =>
      if validate content then
        (task.addResult true, some (result.complete (some content) now))
      else
        scrapeTaskHandleError task result
          ⟨"Content validation failed", "ContentValidationError"⟩ now
  | .error e => scrapeTaskHandleError task result e now

/-- `BaseScraper.scrape_task` (`base.py`): start the task, run the per-URL
loop accumulating the appended results, then mark the task Completed when
`task.failed_urls == 0` and Failed otherwise. -/
def scrapeTask (fetch : String → Except ScrapeErr ScrapedContent)
    (validate : ScrapedContent → Bool) (task : ScrapingTask)
    (now : Nat) : ScrapingTask × List ScrapingResult :=
  let task := task.start now
  let step := fun (acc : ScrapingTask × List ScrapingResult) url =>
    match scrapeTaskStep fetch validate acc.1 url now with
    | (task', some r) => (task', acc.2 ++ [r])
    | (task', none) => (task', acc.2)
  let out := task.urls.foldl step (task, [])
  if out.1.failedUrls = 0 then
    (out.1.complete now, out.2)
  else
    (out.1.fail now, out.2)

/-! ### Filesystem storage (`storage.py`) -/

/-- A `pathlib.Path`: parent directory components plus the final name. -/
structure PyPath where
  dir : List String
  name : String
deriving DecidableEq, Repr

/-- `pathlib`'s `Path.suffix` of a file name: the last dot-extension, or
`""` when there is none or the name is a lone dotfile like `".bar"`. -/
def nameSuffix (name : String) : String :=
  let parts := pySplitOn name "."
  if parts.length ≤ 1 then ""
  else if parts.headD "" = "" && parts.length = 2 then ""
  else "." ++ parts.getLastD ""

/-- `pathlib`'s `Path.stem` of a file name: the name minus its suffix. -/
def nameStem (name : String) : String :=
  pyDropRight name (nameSuffix name).data.length

/-- `Path.with_name`: replace the final component. -/
def PyPath.withName (p : PyPath) (n : String) : PyPath :=
  { p with name := n }

/-- `Path.with_suffix`: replace (or drop, for `""`) the suffix. -/
def PyPath.withSuffix (p : PyPath) (s : String) : PyPath :=
  { p with name := nameStem p.name ++ s }

/-- Contents of one stored file: a text body written by `store_content`,
or the JSON metadata sidecar (kept as the serialized `ScrapedContent`;
`load_content` overwrites its `text` field from the body file). -/
inductive FileData
  | textFile (text : String) (encoding : String)
  | jsonMeta (meta : ScrapedContent)
deriving DecidableEq, Repr

/-- The filesystem under the storage root: an association list from paths
to file contents (directories are implicit). -/
abbrev FileSys := List (PyPath × FileData)

/-- Look a path up in the filesystem. -/
def fsLookup (fs : FileSys) (p : PyPath) : Option FileData :=
  (fs.find? fun e => e.1 = p).map (·.2)

/-- `Path.exists()`. -/
def fsExists (fs : FileSys) (p : PyPath) : Bool :=
  (fsLookup fs p).isSome

/-- `open(path, "w")` + write: create or truncate. -/
def fsWrite (fs : FileSys) (p : PyPath) (d : FileData) : FileSys :=
  (p, d) :: fs.filter fun e => e.1 ≠ p

/-- `Path.unlink()`. -/
def fsRemove (fs : FileSys) (p : PyPath) : FileSys :=
  fs.filter fun e => e.1 ≠ p

/-- The in-memory state of a `FileSystemStorage` instance: configuration,
the `_content_hashes` set (as a duplicate-free list) and the filesystem.
The on-disk `.content_hashes.json` mirror of the hash set is not modelled
as a file: it is hidden (dot-named), so `list_content` and the cleanup
walk never see it. -/
structure StorageState where
  basePath : List String
  duplicateDetection : Bool
  contentHashes : List String
  fs : FileSys
deriving DecidableEq, Repr

/-- `set.add` on the hash index. -/
def insertHash (h : String) (hs : List String) : List String :=
  if hs.contains h then hs else h :: hs

/-- `FileSystemStorage._get_content_hash`: SHA-256 over
`f"{text}|{url}|{source}"`.  The digest function itself is an external
primitive and enters as the `hashFn` parameter. -/
def getContentHash (hashFn : String → String) (c : ScrapedContent) : String :=
  hashFn (c.text ++ "|" ++ c.url ++ "|" ++ c.source)

/-- `FileSystemStorage._is_duplicate`. -/
def isDuplicate (hashFn : String → String) (st : StorageState)
    (c : ScrapedContent) : Bool :=
  st.duplicateDetection && st.contentHashes.contains (getContentHash hashFn c)

/-- `FileSystemStorage._get_storage_path`:
`base / source / (category or "uncategorized") / format`. -/
def getStoragePath (st : StorageState) (c : ScrapedContent) : List String :=
  st.basePath ++ [c.source, c.category.getD "uncategorized", c.format.value]

/-- `FileSystemStorage.store_content`: duplicate check, then write the
text body and the metadata sidecar and register the hash.  Every raised
exception surfaces as `StorageError("Failed to store content: ...")`. -/
def storeContent (hashFn : String → String) (st : StorageState)
    (c : ScrapedContent) : Except String (PyPath × StorageState) :=
  if isDuplicate hashFn st c then
    .error ("Failed to store content: Duplicate content detected: " ++ c.url)
  else
    let dir := getStoragePath st c
    let textPath : PyPath := ⟨dir, c.getFilename⟩
    let metadataPath : PyPath := ⟨dir, c.getMetadataFilename⟩
    let fs := fsWrite (fsWrite st.fs textPath (.textFile c.text c.encoding))
      metadataPath (.jsonMeta c)
    let st := { st with fs := fs }
    let st :=
      if st.duplicateDetection then
        { st with contentHashes := insertHash (getContentHash hashFn c) st.contentHashes }
      else st
    .ok (textPath, st)

/-- The sidecar-path derivation of `FileSystemStorage.load_content`:
`content_path.with_suffix(".json").with_name(
   content_path.stem.replace("." + content_path.suffix[1:], "_metadata.json"))`.
Note it replaces inside the *stem* (which does not contain the suffix),
not inside the full name. -/
def metadataPathFor (contentPath : PyPath) : PyPath :=
  (contentPath.withSuffix ".json").withName
    (pyReplace (nameStem contentPath.name)
      ("." ++ pyDropLeft (nameSuffix contentPath.name) 1) "_metadata.json")

/-- `FileSystemStorage.load_content`: locate the sidecar (failing with
`StorageError` when it is missing), read the metadata and the body, and
rebuild the `ScrapedContent` with the body text. -/
def loadContent (fs : FileSys) (contentPath : PyPath) : Except String ScrapedContent :=
  let metadataPath := metadataPathFor contentPath
  match fsLookup fs metadataPath with
  | none => .error ("Failed to load content: Metadata file not found")
  | some (.textFile _ _) => .error ("Failed to load content: invalid metadata file")
  | some (.jsonMeta meta) =>
      match fsLookup fs contentPath with
      | some (.textFile text _) => .ok { meta with text := text }
      | _ => .error ("Failed to load content: content file not readable")

/-- Whether a path lies under a base directory (the `rglob` walk). -/
def underBase (basePath : List String) (p : PyPath) : Bool :=
  basePath.isPrefixOf p.dir

/-- `FileSystemStorage.list_content` with no filters: every non-hidden
file under the base path whose name does not end in `_metadata.json`.
The Python sorts the list; order is irrelevant to every property proved
here, so the filesystem order is kept. -/
def listContent (st : StorageState) : List PyPath :=
  ((st.fs.map fun e => e.1).filter fun p =>
    underBase st.basePath p
      && !(pyStartsWith p.name ".")
      && !(pyEndsWith p.name "_metadata.json"))

/-- The body-path derivation of the orphaned-sidecar loop of
`FileSystemStorage.cleanup_orphaned_files`:
`metadata_file.with_suffix("").with_name(
   metadata_file.stem.replace("_metadata", ""))`. -/
def contentPathForMeta (metadataFile : PyPath) : PyPath :=
  (metadataFile.withSuffix "").withName
    (pyReplace (nameStem metadataFile.name) "_metadata" "")

/-- `FileSystemStorage.cleanup_orphaned_files`: remove every listed
content file whose derived sidecar path does not exist, then every
`*_metadata.json` file whose derived body path does not exist; return
the new filesystem and the removal count. -/
def cleanupOrphanedFiles (st : StorageState) : FileSys × Nat :=
  let step1 := (listContent st).foldl
    (fun (acc : FileSys × Nat) p =>
      if fsExists acc.1 (metadataPathFor p) then acc
      else (fsRemove acc.1 p, acc.2 + 1))
    (st.fs, 0)
  let metaFiles := (step1.1.map fun e => e.1).filter fun p =>
    underBase st.basePath p && pyEndsWith p.name "_metadata.json"
  metaFiles.foldl
    (fun (acc : FileSys × Nat) p =>
      if fsExists acc.1 (contentPathForMeta p) then acc
      else (fsRemove acc.1 p, acc.2 + 1))
    step1

/-- `FileSystemStorage.get_duplicate_content`: group the listed content
files by recomputed hash (files whose `load_content` raises are skipped)
and keep the groups with more than one member. -/
def getDuplicateContent (hashFn : String → String) (st : StorageState) :
    List (String × List PyPath) :=
  if !st.duplicateDetection then []
  else
    let groups := (listContent st).foldl
      (fun (groups : List (String × List PyPath)) p =>
        match loadContent st.fs p with
        | .error _ => groups
        | .ok c =>
            let h := getContentHash hashFn c
            match groups.find? fun g => g.1 = h with
            | some g =>
                groups.map fun g' => if g'.1 = h then (g'.1, g.2 ++ [p]) else g'
            | none => groups ++ [(h, [p])])
      []
    groups.filter fun g => g.2.length > 1

/-! ### Token-bucket rate limiter (`utils/rate_limiter.py`) -/

/-- The mutable state of a `TokenBucketRateLimiter`.  Time and token
counts are exact rationals standing for the Python floats. -/
structure TokenBucket where
  rate : ℚ
  capacity : ℚ
  tokens : ℚ
  lastUpdate : ℚ
  totalRequests : Nat
  blockedRequests : Nat
  totalWaitTime : ℚ
deriving DecidableEq, Repr

/-- `TokenBucketRateLimiter.__init__` at creation time `now`:
the bucket starts full. -/
def TokenBucket.init (rate capacity now : ℚ) : TokenBucket :=
  { rate := rate
    capacity := capacity
    tokens := capacity
    lastUpdate := now
    totalRequests := 0
    blockedRequests := 0
    totalWaitTime := 0 }

/-- `TokenBucketRateLimiter.acquire`, entered at wall-clock time `now`
(the lock serializes callers, so a sequential trace is exact): refill by
the elapsed time capped at capacity, then either consume one token and
return immediately, or sleep `(1 - tokens) / rate` and drain the bucket
to 0.  Returns the new state and the time at which the call returns.
Note the code sets `last_update` *before* the sleep and never advances
it past the sleep. -/
def TokenBucket.acquire (b : TokenBucket) (now : ℚ) : TokenBucket × ℚ :=
  let elapsed := now - b.lastUpdate
  let tokens := min b.capacity (b.tokens + elapsed * b.rate)
  let b := { b with tokens := tokens, lastUpdate := now }
  if tokens ≥ 1 then
    ({ b with tokens := tokens - 1, totalRequests := b.totalRequests + 1 }, now)
  else
    let waitTime := (1 - tokens) / b.rate
    ({ b with
        tokens := 0
        blockedRequests := b.blockedRequests + 1
        totalWaitTime := b.totalWaitTime + waitTime
        totalRequests := b.totalRequests + 1 },
      now + waitTime)

/-- A sequential trace of `acquire` calls: each list entry is the idle
time between the previous call's return and the next call; returns the
final state and the time the last call returns (`t` when the list is
empty). -/
def TokenBucket.runAcquires (b : TokenBucket) (t : ℚ) : List ℚ → TokenBucket × ℚ
  | [] => (b, t)
  | d :: ds =>
      let out := b.acquire (t + d)
      TokenBucket.runAcquires out.1 out.2 ds

/-! ### Robots.txt check (`BaseScraper._check_robots_txt`, `base.py`) -/

/-- Outcome of the `session.get(robots_url)` call: an HTTP response with
a status code and body, or a raised network exception. -/
inductive FetchOutcome
  | success (status : Nat) (body : String)
  | netError
deriving DecidableEq, Repr

/-- `line.split(":", 1)[1]`: everything after the first colon (callers
guard on a leading `"...:"`, so a colon is always present). -/
def afterFirstColon (line : String) : String :=
  match pySplitOn line ":" with
  | [] => ""
  | [_] => ""
  | _ :: rest => String.intercalate ":" rest

/-- The line loop of `_check_robots_txt` over the lowercased robots.txt
body: track whether the current `User-agent` block applies (`*` or the
configured agent as a substring), and inside an applicable block return
`false` on the first non-empty `Disallow:` path that prefixes the URL
path.  `userAgent` is already lowercased by the caller. -/
def robotsLinesAllow (userAgent urlPath : String) :
    List String → Bool → Bool
  | [], _ => true
  | rawLine :: rest, inSection =>
      let line := pyStrip rawLine
      if pyStartsWith line "user-agent:" then
        let agent := pyStrip (afterFirstColon line)
        robotsLinesAllow userAgent urlPath rest
          (agent = "*" || pyContains agent userAgent)
      else
        if inSection && pyStartsWith line "disallow:" then
          let disallowPath := pyStrip (afterFirstColon line)
          if disallowPath ≠ "" && pyStartsWith urlPath disallowPath then false
          else robotsLinesAllow userAgent urlPath rest inSection
        else robotsLinesAllow userAgent urlPath rest inSection

/-- `BaseScraper._check_robots_txt`.  `urlPath` is `urlparse(url).path`
(URL splitting is a stdlib call).  Returns the allow/deny verdict plus
the number of HTTP fetches of the robots.txt URL this call performed.
With robots checking disabled or no configured robots.txt URL the check
returns `true` without fetching; a 404 response, any other error status
(`raise_for_status`) and any network exception all fall back to `true`;
otherwise the body is parsed.  No verdict or body is ever cached. -/
def checkRobotsTxt (respectRobots : Bool) (robotsTxtUrl : Option String)
    (userAgent urlPath : String) (outcome : FetchOutcome) : Bool × Nat :=
  if !respectRobots || robotsTxtUrl.isNone then
    (true, 0)
  else
    match outcome with
    | .netError => (true, 1)
    | .success status body =>
        if status = 404 then (true, 1)
        else if 400 ≤ status && status < 600 then (true, 1)
        else
          (robotsLinesAllow (pyLower userAgent) urlPath
            (pySplitOn (pyLower body) "\n") false, 1)

/-- Total number of robots.txt fetches performed by a sequence of
`_check_robots_txt` calls for one source (one call per request issued by
`_make_request`; the scraper object carries no robots cache, so the
calls are independent). -/
def robotsFetchCount (respectRobots : Bool) (robotsTxtUrl : Option String)
    (userAgent urlPath : String) (outcomes : List FetchOutcome) : Nat :=
  (outcomes.map fun o =>
    (checkRobotsTxt respectRobots robotsTxtUrl userAgent urlPath o).2).sum

/-! ### Content validation (`BaseScraper._validate_content`, `base.py`) -/

/-- The fields of `ScrapingConfig` (`config.py`) read by
`_validate_content`. -/
structure ScrapingConfig where
  validateContent : Bool
  minTextLength : Nat
  maxTextLength : Nat
  allowedFormats : List TextFormat
  validateEncoding : Bool
deriving DecidableEq, Repr

/-- `BaseScraper._validate_content`: length bounds, allowed format, and
(when `validate_encoding` is set) encodability of the text in its
declared encoding.  `canEncode text encoding` models
`text.encode(encoding)` succeeding (the codec table is external). -/
def validateContentCheck (config : ScrapingConfig)
    (canEncode : String → String → Bool) (content : ScrapedContent) : Bool :=
  if !config.validateContent then true
  else if content.text.length < config.minTextLength then false
  else if content.text.length > config.maxTextLength then false
  else if !(config.allowedFormats.contains content.format) then false
  else if config.validateEncoding && !(canEncode content.text content.encoding) then false
  else true

/-! ### Concrete instances used by the counterexample and witness theorems -/

/-- A freshly constructed `ScrapingTask` with the pydantic field defaults
of `models.py`: Pending status and all counters zero. -/
def ScrapingTask.new (id source : String) (urls : List String)
    (maxRetries : Nat) (createdAt : Nat) : ScrapingTask :=
  { id := id
    source := source
    urls := urls
    maxRetries := maxRetries
    status := .pending
    createdAt := createdAt
    startedAt := none
    completedAt := none
    totalUrls := 0
    processedUrls := 0
    successfulUrls := 0
    failedUrls := 0 }

/-- A representative valid `ScrapedContent` value. -/
def sampleContent : ScrapedContent :=
  { text := "agnim ile purohitam"
    title := "Rig Veda"
    url := "http://gretil.example/rv1"
    source := "gretil"
    format := .html
    category := none
    author := none
    scrapedAt := 20240101
    encoding := "utf-8"
    retryCount := 0
    tags := [] }

/-- An empty storage root at `data/raw` with duplicate detection on. -/
def emptyStore : StorageState :=
  { basePath := ["data", "raw"]
    duplicateDetection := true
    contentHashes := []
    fs := [] }

/-- The path `store_content` returns for `sampleContent`. -/
def sampleBodyPath : PyPath :=
  ⟨["data", "raw", "gretil", "uncategorized", "html"], "Rig_Veda_20240101.html"⟩

/-- The metadata sidecar path `store_content` writes for `sampleContent`. -/
def sampleMetaPath : PyPath :=
  ⟨["data", "raw", "gretil", "uncategorized", "html"], "Rig_Veda_20240101_metadata.json"⟩

/-- The storage state after storing `sampleContent` once into the empty
store (the identity stands in for the SHA-256 digest; every property
proved about it uses only that the digest is a function). -/
def storedOnce : StorageState :=
  match storeContent id emptyStore sampleContent with
  | .ok (_, st) => st
  | .error _ => emptyStore

/-- An adapter (`scrape_url`) that fails on every URL with a connection
error, as `BaseScraper._make_request` raises it. -/
def alwaysFailFetch : String → Except ScrapeErr ScrapedContent :=
  fun url => .error ⟨"Connection error: " ++ url, "ScrapingError"⟩

/-- A one-URL task with `max_retries = 3`, fresh from construction. -/
def oneUrlTask : ScrapingTask :=
  ScrapingTask.new "gretil_20240101" "gretil" ["http://gretil.example/rv1"] 3 0

/-- A filesystem holding one properly stored body+sidecar pair, one
orphan body and one orphan sidecar, all under the storage root. -/
def mixedStore : StorageState :=
  { basePath := ["data", "raw"]
    duplicateDetection := true
    contentHashes := []
    fs := [ (⟨["data", "raw", "gretil", "uncategorized", "html"], "Pair_1.html"⟩,
              .textFile "paired body" "utf-8")
          , (⟨["data", "raw", "gretil", "uncategorized", "html"], "Pair_1_metadata.json"⟩,
              .jsonMeta sampleContent)
          , (⟨["data", "raw", "gretil", "uncategorized", "html"], "Orphan_2.html"⟩,
              .textFile "orphan body" "utf-8")
          , (⟨["data", "raw", "gretil", "uncategorized", "html"], "Widow_3_metadata.json"⟩,
              .jsonMeta sampleContent) ] }

/-- A benign robots.txt body. -/
def allowAllRobots : String :=
  "User-agent: *\nDisallow:"

/-- The rate-limiter counterexample trace: rate 1 token/s, capacity 1,
five back-to-back `acquire` calls starting at creation time 0. -/
def c6Trace : TokenBucket × ℚ :=
  TokenBucket.runAcquires (TokenBucket.init 1 1 0) 0 [0, 0, 0, 0, 0]

/-- A `ScrapingConfig` with every validation switch on. -/
def strictConfig : ScrapingConfig :=
  { validateContent := true
    minTextLength := 1
    maxTextLength := 1000000
    allowedFormats := [.html, .pdf, .plaintext, .xml, .json]
    validateEncoding := true }

/-! ### Theorems -/

/-- C1: the claim says a URL whose adapter always fails is retried exactly
`max_retries` times, then recorded as a Failed result with
`task.failed_urls = 1`, one result being appended per URL.  Evaluating
`scrape_task` on a one-URL task with `max_retries = 3` and an adapter
that always raises shows the code instead performs a single attempt,
appends no result at all, leaves `failed_urls = 0` and marks the task
Completed: the `continue` in the retry branch advances the URL loop
instead of retrying the same URL. -/
theorem c1_always_failing_url_is_skipped_not_retried :
    (scrapeTask alwaysFailFetch (fun _ => true) oneUrlTask 5).1.status = ScrapingStatus.completed
    ∧ (scrapeTask alwaysFailFetch (fun _ => true) oneUrlTask 5).1.failedUrls = 0
    ∧ (scrapeTask alwaysFailFetch (fun _ => true) oneUrlTask 5).2 = [] :=
  ⟨rfl, rfl, rfl⟩

/-- C3: for every task run by `scrape_task` the terminal status is
Completed exactly when the final `failed_urls` counter is 0, the status
is otherwise Failed, and `completed_at` is set in both cases. -/
theorem c3_completed_iff_no_failed_urls
    (fetch : String → Except ScrapeErr ScrapedContent)
    (validate : ScrapedContent → Bool) (task : ScrapingTask) (now : Nat) :
    ((scrapeTask fetch validate task now).1.status = ScrapingStatus.completed
      ↔ (scrapeTask fetch validate task now).1.failedUrls = 0)
    ∧ ((scrapeTask fetch validate task now).1.status = ScrapingStatus.completed
      ∨ (scrapeTask fetch validate task now).1.status = ScrapingStatus.failed)
    ∧ (scrapeTask fetch validate task now).1.completedAt = some now := by
  simp only [scrapeTask]
  split
  case isTrue h => simp [ScrapingTask.complete, h]
  case isFalse h => simp [ScrapingTask.fail, h]

/-- C2: the claim says `load_content` after `store_content` reproduces the
stored content, and fails with a not-found error only when the sidecar is
missing.  Evaluating the code on a stored sample shows `store_content`
writes the sidecar, yet `load_content` on the returned path fails with
the metadata-not-found error anyway: the sidecar path it derives replaces
the extension inside the `stem`, which never contains it, so it looks up
a path that `store_content` never wrote. -/
theorem c2_round_trip_always_fails :
    storeContent id emptyStore sampleContent = .ok (sampleBodyPath, storedOnce)
    ∧ fsLookup storedOnce.fs sampleMetaPath = some (FileData.jsonMeta sampleContent)
    ∧ loadContent storedOnce.fs sampleBodyPath
        = .error "Failed to load content: Metadata file not found" :=
  ⟨rfl, rfl, rfl⟩

/-- C4: with duplicate detection enabled, `store_content` fails with the
duplicate error exactly when the content's hash is already in the index
and succeeds otherwise; storing identical content twice from an empty
store leaves exactly one stored body+sidecar pair, raises the duplicate
error on the second call, and `get_duplicate_content` then reports zero
duplicate groups. -/
theorem c4_duplicate_detection
    (hashFn : String → String) (st : StorageState) (c : ScrapedContent)
    (hdup : st.duplicateDetection = true) :
    (storeContent hashFn st c
        = .error ("Failed to store content: Duplicate content detected: " ++ c.url)
      ↔ getContentHash hashFn c ∈ st.contentHashes)
    ∧ (getContentHash hashFn c ∉ st.contentHashes →
        (storeContent hashFn st c).isOk = true)
    ∧ storeContent id storedOnce sampleContent
        = .error ("Failed to store content: Duplicate content detected: "
            ++ sampleContent.url)
    ∧ storedOnce.fs = [(sampleMetaPath, .jsonMeta sampleContent),
                       (sampleBodyPath, .textFile sampleContent.text "utf-8")]
    ∧ getDuplicateContent id storedOnce = [] := by
  refine ⟨?_, ?_, rfl, rfl, rfl⟩
  · by_cases hm : getContentHash hashFn c ∈ st.contentHashes
    · have hg : isDuplicate hashFn st c = true := by simp [isDuplicate, hdup, hm]
      simp [storeContent, hg, hm]
    · have hg : isDuplicate hashFn st c = false := by simp [isDuplicate, hdup, hm]
      simp [storeContent, hg, hm]
  · intro hm
    have hg : isDuplicate hashFn st c = false := by simp [isDuplicate, hdup, hm]
    simp [storeContent, hg, hdup, Except.isOk, Except.toBool]

/-- C4 witness: the duplicate-detection theorem applied to the identity
digest, the empty store and the sample content. -/
theorem c4_witness :
    (storeContent id emptyStore sampleContent
        = .error ("Failed to store content: Duplicate content detected: "
            ++ sampleContent.url)
      ↔ getContentHash id sampleContent ∈ emptyStore.contentHashes)
    ∧ (getContentHash id sampleContent ∉ emptyStore.contentHashes →
        (storeContent id emptyStore sampleContent).isOk = true)
    ∧ storeContent id storedOnce sampleContent
        = .error ("Failed to store content: Duplicate content detected: "
            ++ sampleContent.url)
    ∧ storedOnce.fs = [(sampleMetaPath, .jsonMeta sampleContent),
                       (sampleBodyPath, .textFile sampleContent.text "utf-8")]
    ∧ getDuplicateContent id storedOnce = [] :=
  c4_duplicate_detection id emptyStore sampleContent rfl

/-- Every `_check_robots_txt` call with robots checking enabled and a
configured robots.txt URL performs exactly one fetch of that URL, and no
call performs one otherwise: the scraper keeps no robots cache. -/
theorem checkRobotsTxt_always_fetches (r : Bool) (u : Option String) (ua path : String)
    (o : FetchOutcome) :
    (checkRobotsTxt r u ua path o).2 = if r && u.isSome then 1 else 0 := by
  cases r <;> cases u <;> cases o <;> simp [checkRobotsTxt] <;> split_ifs <;>
    try rfl

/-- C5 (amended): robots.txt is fetched on every request, not once per
source — a sequence of n checks for a source with robots checking
enabled and a configured robots.txt URL performs exactly n fetches
(and zero fetches when the check is disabled or no URL is configured). -/
theorem c5_no_robots_caching (r : Bool) (u : Option String) (ua path : String)
    (outcomes : List FetchOutcome) :
    robotsFetchCount r u ua path outcomes
      = if r && u.isSome then outcomes.length else 0 := by
  induction outcomes with
  | nil => cases hr : (r && u.isSome) <;> simp [robotsFetchCount, hr]
  | cons o os ih =>
      simp only [robotsFetchCount, List.map_cons, List.sum_cons] at ih ⊢
      rw [checkRobotsTxt_always_fetches, ih]
      cases hr : (r && u.isSome) <;> simp [hr] <;> try omega

/-- C5 counterexample: two consecutive robots checks for the same source
fetch the robots.txt URL twice, refuting "at most one fetch per source". -/
theorem c5_two_checks_fetch_twice :
    robotsFetchCount true (some "http://gretil.example/robots.txt") "Code4Ved/1.0" "/rv1"
      [.success 200 allowAllRobots, .success 200 allowAllRobots] = 2
    ∧ ¬(robotsFetchCount true (some "http://gretil.example/robots.txt") "Code4Ved/1.0" "/rv1"
      [.success 200 allowAllRobots, .success 200 allowAllRobots] ≤ 1) :=
  ⟨rfl, by decide⟩

/-- C6: the claim says N completed `acquire` calls on a bucket with rate R
and capacity C take total elapsed time at least `max(0, (N-C)/R)`.
Evaluating the code on rate 1, capacity 1 and five back-to-back calls
starting at creation time 0: all five calls complete by time 2, below the
claimed bound of 4 — the code sets `last_update` before sleeping and never
advances it past the sleep, so the waited interval is credited again on
the next call and the sustained rate is about twice R. -/
theorem c6_total_elapsed_time_below_claimed_bound :
    c6Trace.1.totalRequests = 5
    ∧ c6Trace.2 - 0 = 2
    ∧ ¬((2 : ℚ) ≥ max 0 ((5 - 1) / 1)) := by
  refine ⟨?_, ?_, by norm_num⟩ <;>
    simp only [c6Trace, TokenBucket.runAcquires, TokenBucket.acquire, TokenBucket.init,
      min_def] <;> norm_num

/-- C7: the claim says `cleanup_orphaned_files` removes exactly the
orphaned files and leaves each properly stored body+sidecar pair in
place.  Evaluating the code on a store with one proper pair, one orphan
body and one orphan sidecar shows it removes all four files and returns
4: both derivation paths (sidecar-for-body and body-for-sidecar) use the
file `stem`, so they never name the partner file that actually exists. -/
theorem c7_cleanup_removes_paired_files_too :
    (cleanupOrphanedFiles mixedStore).2 = 4
    ∧ (cleanupOrphanedFiles mixedStore).1 = [] :=
  ⟨rfl, rfl⟩

/-- C8: whenever the robots.txt check itself fails — the fetch raises a
network error, returns 404, or returns any error status that
`raise_for_status` turns into an exception — `_check_robots_txt` returns
true (fail-open) rather than blocking the URL. -/
theorem c8_robots_check_fails_open (r : Bool) (u : Option String)
    (ua path body : String) (status : Nat)
    (hfail : status = 404 ∨ (400 ≤ status ∧ status < 600)) :
    (checkRobotsTxt r u ua path FetchOutcome.netError).1 = true
    ∧ (checkRobotsTxt r u ua path (FetchOutcome.success status body)).1 = true := by
  constructor
  · cases r <;> cases u <;> simp [checkRobotsTxt]
  · rcases hfail with h | ⟨h1, h2⟩
    · cases r <;> cases u <;> simp [checkRobotsTxt, h]
    · cases r <;> cases u <;> simp [checkRobotsTxt, h1, h2]

/-- C8 witness: the fail-open theorem applied to a 404 robots.txt
response with robots checking enabled. -/
theorem c8_witness :
    (checkRobotsTxt true (some "http://gretil.example/robots.txt") "Code4Ved/1.0" "/rv1"
        FetchOutcome.netError).1 = true
    ∧ (checkRobotsTxt true (some "http://gretil.example/robots.txt") "Code4Ved/1.0" "/rv1"
        (FetchOutcome.success 404 "not found")).1 = true :=
  c8_robots_check_fails_open true (some "http://gretil.example/robots.txt")
    "Code4Ved/1.0" "/rv1" "not found" 404 (Or.inl rfl)

/-- C9: with content validation and encoding validation enabled, a
content value whose text cannot be encoded in its declared encoding
makes `_validate_content` return false — a hard validation failure, not
a warning — on every such input. -/
theorem c9_unencodable_text_fails_validation
    (config : ScrapingConfig) (canEncode : String → String → Bool) (c : ScrapedContent)
    (hv : config.validateContent = true) (he : config.validateEncoding = true)
    (henc : canEncode c.text c.encoding = false) :
    validateContentCheck config canEncode c = false := by
  simp only [validateContentCheck, hv, he, henc]
  split_ifs <;> simp_all

/-- C9 witness: the hard-failure theorem applied to the strict
configuration, a codec that rejects everything, and the sample content. -/
theorem c9_witness :
    validateContentCheck strictConfig (fun _ _ => false) sampleContent = false :=
  c9_unencodable_text_fails_validation strictConfig (fun _ _ => false) sampleContent
    rfl rfl rfl

/-- C10: the counter equation `processed = successful + failed` holds for
a freshly constructed task, is preserved by every `add_result` call, and
`progress_percentage` returns 0 when `total_urls` is 0 instead of
dividing by zero. -/
theorem c10_task_counters (t : ScrapingTask) (b : Bool) (i s : String)
    (u : List String) (m ca : Nat)
    (h : t.processedUrls = t.successfulUrls + t.failedUrls) :
    (ScrapingTask.new i s u m ca).processedUrls
        = (ScrapingTask.new i s u m ca).successfulUrls
          + (ScrapingTask.new i s u m ca).failedUrls
    ∧ (t.addResult b).processedUrls
        = (t.addResult b).successfulUrls + (t.addResult b).failedUrls
    ∧ (t.totalUrls = 0 → t.progressPercentage = 0) := by
  refine ⟨rfl, ?_, ?_⟩
  · cases b <;> simp [ScrapingTask.addResult, h] <;> ring
  · intro h0
    simp [ScrapingTask.progressPercentage, h0]

/-- C10 witness: the counter theorem applied to the fresh one-URL task,
whose counters are all zero. -/
theorem c10_witness :
    (ScrapingTask.new "t1" "gretil" ["http://gretil.example/rv1"] 3 0).processedUrls
        = (ScrapingTask.new "t1" "gretil" ["http://gretil.example/rv1"] 3 0).successfulUrls
          + (ScrapingTask.new "t1" "gretil" ["http://gretil.example/rv1"] 3 0).failedUrls
    ∧ (oneUrlTask.addResult true).processedUrls
        = (oneUrlTask.addResult true).successfulUrls + (oneUrlTask.addResult true).failedUrls
    ∧ (oneUrlTask.totalUrls = 0 → oneUrlTask.progressPercentage = 0) :=
  c10_task_counters oneUrlTask true "t1" "gretil" ["http://gretil.example/rv1"] 3 0 rfl
